import Mathlib

/-!
Verification of the Portfolio Ledger & Withdrawal Sustainability Engine.

Shallow embedding of the computational core of the repository
(`withdrawal_planner.py`, `tax_calculator.py`, `portfolio_manager.py`,
`server.py`, `app/services/portfolio_context.py`) into Lean 4.

Monetary amounts, prices, quantities, rates and percentages are modelled
as rationals (`ℚ`).  Python's IEEE-754 floats are replaced by exact
rational arithmetic; the properties proved here are about the arithmetic
structure of the code, not about float rounding.  Advisory strings that
interpolate formatted numbers are either omitted or kept as fixed tags,
since no claim depends on their exact text.
-/

/- ================= Withdrawal planner (withdrawal_planner.py) ============ -/

/-- Result record of `WithdrawalPlanner.calculate_with_guardrails`
(`withdrawal_planner.py` lines 37-79).  The formatted `message` string is
omitted; `status` keeps the exact status tags of the source. -/
structure GuardrailsResult where
  current_value : ℚ
  initial_value : ℚ
  change_percent : ℚ
  status : String
  recommended_rate : ℚ
  recommended_annual : ℚ
  recommended_monthly : ℚ
  base_withdrawal : ℚ
  deriving Repr, DecidableEq

/-- Embedding of `WithdrawalPlanner.calculate_with_guardrails`.
`ceiling_percent` and `floor_percent` default to `0.20` and `0.15` as in the
source.  In Python, `initial_portfolio = 0` raises `ZeroDivisionError`; in ℚ
division by zero yields `0` (the claims only quantify over positive initial
values). -/
def calculate_with_guardrails (portfolio_value initial_portfolio base_withdrawal : ℚ)
    (ceiling_percent : ℚ := 20/100) (floor_percent : ℚ := 15/100) : GuardrailsResult :=
  let change_percent := (portfolio_value - initial_portfolio) / initial_portfolio
  let new_rate : ℚ × String :=
    if change_percent > ceiling_percent then (45/1000, "increase_allowed")
    else if change_percent < -floor_percent then (35/1000, "decrease_recommended")
    else (4/100, "on_track")
  let recommended_withdrawal := portfolio_value * new_rate.1
  { current_value := portfolio_value
    initial_value := initial_portfolio
    change_percent := change_percent
    status := new_rate.2
    recommended_rate := new_rate.1
    recommended_annual := recommended_withdrawal
    recommended_monthly := recommended_withdrawal / 12
    base_withdrawal := base_withdrawal }

/-- One Monte Carlo trial: the inner `for year in range(years)` loop of
`WithdrawalPlanner.run_monte_carlo` (`withdrawal_planner.py` lines 148-163).
The random draws of `random.gauss(0.07, 0.15)` on the process-global
generator are modelled by an explicit stream `draws : ℕ → ℚ` together with a
cursor `pos` into it (the global generator state).  Returns the final
portfolio value, the `survived` flag, and the advanced cursor. -/
def run_monte_carlo_trial (draws : ℕ → ℚ) : ℕ → ℚ → ℚ → ℕ → (ℚ × Bool × ℕ)
  | pos, portfolio, _, 0 => (portfolio, true, pos)
  | pos, portfolio, withdrawal, years + 1 =>
      let annual_return := draws pos
      let portfolio1 := portfolio * (1 + annual_return) - withdrawal
      let withdrawal1 := withdrawal * (103/100)
      if portfolio1 ≤ 0 then (portfolio1, false, pos + 1)
      else run_monte_carlo_trial draws (pos + 1) portfolio1 withdrawal1 years

/-- The outer `for sim in range(simulations)` loop of `run_monte_carlo`:
returns the number of successes, the list of recorded per-trial final values
`max(0, portfolio)` in trial order, and the advanced generator cursor. -/
def run_monte_carlo_sims (draws : ℕ → ℚ) (starting_portfolio annual_withdrawal : ℚ)
    (years : ℕ) : ℕ → ℕ → (ℕ × List ℚ × ℕ)
  | pos, 0 => (0, [], pos)
  | pos, sims + 1 =>
      let t := run_monte_carlo_trial draws pos starting_portfolio annual_withdrawal years
      let rest := run_monte_carlo_sims draws starting_portfolio annual_withdrawal years t.2.2 sims
      ((if t.2.1 then 1 else 0) + rest.1, max 0 t.1 :: rest.2.1, rest.2.2)

/-- Result record of `WithdrawalPlanner.run_monte_carlo`
(`withdrawal_planner.py` lines 191-199). -/
structure MonteCarloResult where
  simulations : ℕ
  success_rate : ℚ
  median_final_value : ℚ
  worst_case_10th_percentile : ℚ
  best_case_90th_percentile : ℚ
  recommendation : String
  confidence_level : String
  deriving Repr, DecidableEq

/-- Embedding of `WithdrawalPlanner.run_monte_carlo`
(`withdrawal_planner.py` lines 131-199).  The source has NO seed parameter:
it reads the process-global `random` generator, modelled here as the stream
`draws` plus the cursor `pos`; the advanced cursor is returned alongside the
result, since the real call advances the global generator state.
`sorted(...)` is modelled by insertion sort (a sorted permutation, as
Python's Timsort produces); the truncating index computations
`len // 2`, `int(len * 0.1)`, `int(len * 0.9)` become ℕ floor divisions. -/
def run_monte_carlo (draws : ℕ → ℚ) (pos : ℕ) (starting_portfolio annual_withdrawal : ℚ)
    (years : ℕ := 30) (simulations : ℕ := 1000) : MonteCarloResult × ℕ :=
  let r := run_monte_carlo_sims draws starting_portfolio annual_withdrawal years pos simulations
  let successes := r.1
  let final_values := (r.2.1).insertionSort (· ≤ ·)
  let success_rate := ((successes : ℚ) / (simulations : ℚ)) * 100
  let median := final_values.getD (final_values.length / 2) 0
  let percentile_10 := final_values.getD (final_values.length * 1 / 10) 0
  let percentile_90 := final_values.getD (final_values.length * 9 / 10) 0
  let recommendation :=
    if success_rate ≥ 90 then "Excellent sustainability - portfolio very likely to last"
    else if success_rate ≥ 75 then "Good sustainability - portfolio likely to last with monitoring"
    else if success_rate ≥ 60 then "Moderate risk - consider reducing withdrawal rate"
    else "High risk - withdrawal rate likely unsustainable"
  let confidence := if success_rate ≥ 85 then "High" else if success_rate ≥ 70 then "Moderate" else "Low"
  ({ simulations := simulations
     success_rate := success_rate
     median_final_value := median
     worst_case_10th_percentile := percentile_10
     best_case_90th_percentile := percentile_90
     recommendation := recommendation
     confidence_level := confidence }, r.2.2)

/- ===================== Tax engine (tax_calculator.py) =================== -/

/-- Jurisdictions dispatched by `TaxCalculator.calculate_capital_gains_tax`. -/
inductive Jurisdiction where
  | kenya | us | uk | international
  deriving Repr, DecidableEq

/-- Taxpayer status keys of `KENYA_TAX_RATES` (`'resident'`/`'non_resident'`). -/
inductive TaxpayerStatus where
  | resident | non_resident
  deriving Repr, DecidableEq

/-- Numeric core of the per-sale tax result dictionaries returned by
`TaxCalculator.calculate_capital_gains_tax` and its `_calculate_*_cgt`
helpers.  `tax_loss` is `some` exactly on the loss path (`gross_gain ≤ 0`);
`taxable_gain` is `some` only for the UK result.  Advisory strings are
omitted. -/
structure TaxResult where
  gross_gain : ℚ
  tax_owed : ℚ
  net_gain : ℚ
  tax_rate : ℚ
  holding_period_days : ℤ
  jurisdiction : Jurisdiction
  tax_loss : Option ℚ := none
  taxable_gain : Option ℚ := none
  deriving Repr, DecidableEq

/-- Embedding of `TaxCalculator._calculate_kenya_cgt` (`tax_calculator.py`
lines 145-168): flat 5% rate for both taxpayer statuses. -/
def calculate_kenya_cgt (gross_gain : ℚ) (holding_days : ℤ)
    (taxpayer_status : TaxpayerStatus) : TaxResult :=
  let tax_rate : ℚ := match taxpayer_status with
    | .resident => 5/100
    | .non_resident => 5/100
  let tax_owed := gross_gain * tax_rate
  { gross_gain := gross_gain
    tax_owed := tax_owed
    net_gain := gross_gain - tax_owed
    tax_rate := tax_rate
    holding_period_days := holding_days
    jurisdiction := .kenya }

/-- Embedding of `TaxCalculator._calculate_us_cgt` (`tax_calculator.py`
lines 170-202): 15% long-term rate when held at least 365 days, else 22%. -/
def calculate_us_cgt (gross_gain : ℚ) (holding_days : ℤ) : TaxResult :=
  let tax_rate : ℚ := if holding_days ≥ 365 then 15/100 else 22/100
  let tax_owed := gross_gain * tax_rate
  { gross_gain := gross_gain
    tax_owed := tax_owed
    net_gain := gross_gain - tax_owed
    tax_rate := tax_rate
    holding_period_days := holding_days
    jurisdiction := .us }

/-- Embedding of `TaxCalculator._calculate_uk_cgt` (`tax_calculator.py`
lines 204-232): £3,000 annual allowance deducted, 10% basic rate applied to
the remainder. -/
def calculate_uk_cgt (gross_gain : ℚ) (holding_days : ℤ) : TaxResult :=
  let annual_allowance : ℚ := 3000
  let taxable_gain := max 0 (gross_gain - annual_allowance)
  let tax_rate : ℚ := 10/100
  let tax_owed := taxable_gain * tax_rate
  { gross_gain := gross_gain
    tax_owed := tax_owed
    net_gain := gross_gain - tax_owed
    tax_rate := tax_rate
    holding_period_days := holding_days
    jurisdiction := .uk
    taxable_gain := some taxable_gain }

/-- Embedding of `TaxCalculator._calculate_international_cgt`
(`tax_calculator.py` lines 234-251): conservative flat 20% estimate. -/
def calculate_international_cgt (gross_gain : ℚ) (holding_days : ℤ) : TaxResult :=
  let tax_rate : ℚ := 20/100
  let tax_owed := gross_gain * tax_rate
  { gross_gain := gross_gain
    tax_owed := tax_owed
    net_gain := gross_gain - tax_owed
    tax_rate := tax_rate
    holding_period_days := holding_days
    jurisdiction := .international }

/-- Embedding of `TaxCalculator.calculate_capital_gains_tax`
(`tax_calculator.py` lines 89-143).  The date subtraction
`(sale_date - purchase_date).days` is passed in directly as
`holding_period_days`. -/
def calculate_capital_gains_tax (purchase_price sale_price quantity : ℚ)
    (holding_period_days : ℤ) (jurisdiction : Jurisdiction)
    (taxpayer_status : TaxpayerStatus := .resident) : TaxResult :=
  let gross_gain := (sale_price - purchase_price) * quantity
  if gross_gain ≤ 0 then
    { gross_gain := gross_gain
      tax_owed := 0
      net_gain := gross_gain
      tax_rate := 0
      holding_period_days := holding_period_days
      jurisdiction := jurisdiction
      tax_loss := some |gross_gain| }
  else
    match jurisdiction with
    | .kenya => calculate_kenya_cgt gross_gain holding_period_days taxpayer_status
    | .us => calculate_us_cgt gross_gain holding_period_days
    | .uk => calculate_uk_cgt gross_gain holding_period_days
    | .international => calculate_international_cgt gross_gain holding_period_days

/- ============== Valuation helpers (portfolio_manager.py) ================ -/

/-- Per-entry P/L record of `PortfolioManager.calculate_position_pl`
(`portfolio_manager.py` lines 189-207). -/
structure PositionPL where
  quantity : ℚ
  purchase_price : ℚ
  current_price : ℚ
  cost_basis : ℚ
  current_value : ℚ
  pl_amount : ℚ
  pl_percent : ℚ
  is_gain : Bool
  deriving Repr, DecidableEq

/-- Embedding of `PortfolioManager.calculate_position_pl`. -/
def calculate_position_pl (quantity purchase_price current_price : ℚ) : PositionPL :=
  let cost_basis := quantity * purchase_price
  let current_value := quantity * current_price
  let pl_amount := current_value - cost_basis
  let pl_percent := if cost_basis > 0 then pl_amount / cost_basis * 100 else 0
  { quantity := quantity
    purchase_price := purchase_price
    current_price := current_price
    cost_basis := cost_basis
    current_value := current_value
    pl_amount := pl_amount
    pl_percent := pl_percent
    is_gain := pl_amount ≥ 0 }

/-- One lot of the file-based `PortfolioManager` ledger (`@dataclass Position`,
`portfolio_manager.py` lines 17-29). -/
structure PMPosition where
  symbol : String
  quantity : ℚ
  purchase_price : ℚ
  purchase_date : String
  asset_type : String
  market : String
  notes : String
  deriving Repr, DecidableEq

/-- Embedding of `PortfolioManager.add_position` (`portfolio_manager.py`
lines 139-172): unconditionally appends the lot to the positions list and
reports `success: True`.  The source performs NO validation of `quantity` or
`purchase_price`. -/
def pm_add_position (positions : List PMPosition) (symbol : String)
    (quantity purchase_price : ℚ) (purchase_date : String)
    (asset_type : String := "stock") (market : String := "US")
    (notes : String := "") : List PMPosition × Bool :=
  let position : PMPosition :=
    { symbol := symbol.toUpper
      quantity := quantity
      purchase_price := purchase_price
      purchase_date := purchase_date
      asset_type := asset_type
      market := market
      notes := notes }
  (positions ++ [position], true)

/- =============== Supabase-backed ledger routes (server.py) ============== -/

/-- One purchase lot of a Supabase `positions` row (`entries` array element,
`server.py` lines 1728-1734). -/
structure LedgerEntry where
  quantity : ℚ
  price : ℚ
  date : String
  notes : String
  deriving Repr, DecidableEq

/-- A row of the Supabase `positions` table as read and written by the
`/api/portfolio/position/*` routes. -/
structure LedgerPosition where
  symbol : String
  asset_type : String
  entries : List LedgerEntry
  total_quantity : ℚ
  average_cost : ℚ
  total_invested : ℚ
  deriving Repr, DecidableEq

/-- A row of the Supabase `withdrawals` table (`server.py` lines 2014-2020). -/
structure WithdrawalRecord where
  amount : ℚ
  withdrawal_date : String
  withdrawal_type : String
  notes : String
  deriving Repr, DecidableEq

/-- The per-user ledger state the routes mutate: the portfolio's cash
balance, its `positions` rows and its `withdrawals` rows. -/
structure PortfolioState where
  cash_balance : ℚ
  positions : List LedgerPosition
  withdrawals : List WithdrawalRecord
  deriving Repr, DecidableEq

/-- The distinct `ValueError` messages raised by the ledger routes, as tags. -/
inductive LedgerError where
  | insufficient_cash
  | position_not_found
  | insufficient_quantity
  deriving Repr, DecidableEq

/-- Outcome of a ledger mutation.  `ok` carries the updated state and a
receipt; `err` carries the state left behind by the raised `ValueError`
(every raising route in the source raises before its first database write,
which the theorems below make explicit by proving the carried state equals
the input state). -/
inductive LedgerResult (ρ : Type) where
  | ok (st : PortfolioState) (receipt : ρ)
  | err (st : PortfolioState) (e : LedgerError)
  deriving Repr, DecidableEq

/-- Replaces the first element satisfying `p` by its image under `f`
(models an update keyed by the `id` of the first row matched by symbol). -/
def replace_first {α : Type} (p : α → Bool) (f : α → α) : List α → List α
  | [] => []
  | x :: xs => if p x then f x :: xs else x :: replace_first p f xs

/-- Receipt of a successful `/api/portfolio/position/add` call. -/
structure AddReceipt where
  cash_spent : ℚ
  new_cash_balance : ℚ
  deriving Repr, DecidableEq

/-- Embedding of the `add_position` route (`server.py` lines 1693-1822).
Checks only that the cash balance covers `quantity * purchase_price`; there
is NO validation that `quantity` or `purchase_price` is positive.  If a
position row for the symbol exists, the lot is appended to its `entries`
and the aggregates recomputed; otherwise a new row is inserted.  Cash is
reduced by the total cost in both branches. -/
def add_position (st : PortfolioState) (symbol : String)
    (quantity purchase_price : ℚ) (purchase_date : String)
    (asset_type : String := "stock") (notes : String := "") :
    LedgerResult AddReceipt :=
  let total_cost := quantity * purchase_price
  if st.cash_balance < total_cost then .err st .insufficient_cash
  else
    let entry : LedgerEntry :=
      { quantity := quantity, price := purchase_price, date := purchase_date, notes := notes }
    let new_cash_balance := st.cash_balance - total_cost
    let receipt : AddReceipt := { cash_spent := total_cost, new_cash_balance := new_cash_balance }
    match st.positions.find? (fun p => p.symbol == symbol) with
    | some pos =>
        let current_entries := pos.entries ++ [entry]
        let total_quantity := (current_entries.map (fun e => e.quantity)).sum
        let total_invested := (current_entries.map (fun e => e.quantity * e.price)).sum
        let average_cost := if total_quantity > 0 then total_invested / total_quantity else 0
        let positions1 := replace_first (fun p => p.symbol == symbol)
          (fun p => { p with
                      entries := current_entries
                      total_quantity := total_quantity
                      average_cost := average_cost
                      total_invested := total_invested })
          st.positions
        .ok { st with positions := positions1, cash_balance := new_cash_balance } receipt
    | none =>
        let newpos : LedgerPosition :=
          { symbol := symbol
            asset_type := asset_type
            entries := [entry]
            total_quantity := quantity
            average_cost := purchase_price
            total_invested := quantity * purchase_price }
        .ok { st with positions := st.positions ++ [newpos], cash_balance := new_cash_balance } receipt

/-- Receipt of a successful `/api/portfolio/position/sell` call. -/
structure SellReceipt where
  sale_proceeds : ℚ
  new_cash_balance : ℚ
  realized_pl : ℚ
  realized_pl_percent : ℚ
  cost_basis : ℚ
  deriving Repr, DecidableEq

/-- Embedding of the `sell_position` route (`server.py` lines 1824-1940).
Fails (before any write) when no row matches the symbol or when
`quantity_to_sell > total_quantity`.  On success, cash grows by the
proceeds; selling the full quantity deletes the row, a partial sell scales
`total_invested` by `new_quantity / current_quantity`. -/
def sell_position (st : PortfolioState) (symbol : String)
    (quantity_to_sell sell_price : ℚ) : LedgerResult SellReceipt :=
  match st.positions.find? (fun p => p.symbol == symbol) with
  | none => .err st .position_not_found
  | some pos =>
      if quantity_to_sell > pos.total_quantity then .err st .insufficient_quantity
      else
        let sale_proceeds := quantity_to_sell * sell_price
        let cost_basis := quantity_to_sell * pos.average_cost
        let realized_pl := sale_proceeds - cost_basis
        let realized_pl_pct := if cost_basis > 0 then realized_pl / cost_basis * 100 else 0
        let new_cash_balance := st.cash_balance + sale_proceeds
        let receipt : SellReceipt :=
          { sale_proceeds := sale_proceeds
            new_cash_balance := new_cash_balance
            realized_pl := realized_pl
            realized_pl_percent := realized_pl_pct
            cost_basis := cost_basis }
        if quantity_to_sell ≥ pos.total_quantity then
          .ok { st with
                cash_balance := new_cash_balance
                positions := st.positions.eraseP (fun p => p.symbol == symbol) } receipt
        else
          let new_quantity := pos.total_quantity - quantity_to_sell
          let new_invested := pos.total_invested * (new_quantity / pos.total_quantity)
          .ok { st with
                cash_balance := new_cash_balance
                positions := replace_first (fun p => p.symbol == symbol)
                  (fun p => { p with
                              total_quantity := new_quantity
                              total_invested := new_invested }) st.positions } receipt

/-- Embedding of the `add_withdrawal` route (`server.py` lines 1983-2036).
Fails (before any write) when the cash balance does not cover the amount;
otherwise deducts the amount and appends the withdrawal row. -/
def add_withdrawal (st : PortfolioState) (amount : ℚ) (withdrawal_date : String)
    (withdrawal_type : String := "general") (notes : String := "") :
    LedgerResult WithdrawalRecord :=
  if st.cash_balance < amount then .err st .insufficient_cash
  else
    let w : WithdrawalRecord :=
      { amount := amount
        withdrawal_date := withdrawal_date
        withdrawal_type := withdrawal_type
        notes := notes }
    .ok { st with
          cash_balance := st.cash_balance - amount
          withdrawals := st.withdrawals ++ [w] } w

/- ============ Health scorer (portfolio_manager.py lines 472-604) ======== -/

/-- Embedding of `PortfolioManager._estimate_portfolio_risk`
(`portfolio_manager.py` lines 557-580).  `by_symbol` is the allocation's
symbol → percent map, as a list of (symbol, percent-of-total) pairs. -/
def estimate_portfolio_risk (by_symbol : List (String × ℚ)) : ℚ :=
  if by_symbol = [] then 1/2
  else
    let risk_total := (by_symbol.map (fun sp =>
      let weight := sp.2 / 100
      if sp.1 ∈ ["TSLA", "NVDA", "AMD"] then weight * (8/10)
      else if sp.1 ∈ ["AAPL", "MSFT", "GOOGL", "AMZN"] then weight * (5/10)
      else weight * (3/10))).sum
    min 1 (max 0 risk_total)

/-- The record returned by `PortfolioManager.calculate_portfolio_health_score`
(insight strings omitted). -/
structure HealthScore where
  diversification : ℚ
  risk_alignment : ℚ
  performance : ℚ
  sustainability : ℚ
  total_score : ℚ
  health_rating : String
  deriving Repr, DecidableEq

/-- Embedding of `PortfolioManager.calculate_portfolio_health_score`
(`portfolio_manager.py` lines 472-555).  Its portfolio-derived inputs are
passed explicitly: `by_symbol` (the allocation's symbol → percent pairs),
`pl_percent` (the portfolio's `total_pl_percent`) and `ytd_rate`
(`ytd_withdrawn / total_value`, `0` when the total value is not positive,
as in the source). -/
def calculate_portfolio_health_score (by_symbol : List (String × ℚ))
    (user_risk_score : ℚ) (pl_percent : ℚ) (ytd_rate : ℚ) : HealthScore :=
  let concentration_penalty :=
    (by_symbol.map (fun sp => if sp.2 > 15 then (sp.2 - 15) * (5/10) else 0)).sum
  let unique_count := by_symbol.length
  let holdings_penalty : ℚ := if unique_count < 5 then ((5 - unique_count : ℕ) : ℚ) * 3 else 0
  let diversification := max 0 (min 25 (25 - concentration_penalty - holdings_penalty))
  let portfolio_risk := estimate_portfolio_risk by_symbol
  let risk_diff := |portfolio_risk - user_risk_score|
  let risk_alignment : ℚ :=
    if risk_diff < 1/10 then 25
    else if risk_diff < 2/10 then 20
    else if risk_diff < 3/10 then 15
    else 10
  let performance : ℚ :=
    if pl_percent > 20 then 25
    else if pl_percent > 10 then 20
    else if pl_percent > 5 then 15
    else if pl_percent > 0 then 10
    else 5
  let sustainability : ℚ :=
    if ytd_rate < 4/100 then 25
    else if ytd_rate < 5/100 then 20
    else if ytd_rate < 6/100 then 15
    else 10
  let total_score := diversification + risk_alignment + performance + sustainability
  let health_rating :=
    if total_score ≥ 85 then "Excellent"
    else if total_score ≥ 70 then "Good"
    else if total_score ≥ 55 then "Fair"
    else "Needs Attention"
  { diversification := diversification
    risk_alignment := risk_alignment
    performance := performance
    sustainability := sustainability
    total_score := total_score
    health_rating := health_rating }

/- ==== Concentration detection (app/services/portfolio_context.py) ====== -/

/-- One element of the allocation breakdown built by `_build_allocation`
(`app/services/portfolio_context.py`): a holding's symbol, current value and
percent of total portfolio value (metadata fields omitted). -/
structure AllocEntry where
  symbol : String
  value : ℚ
  percent : ℚ
  deriving Repr, DecidableEq

/-- The `ConcentrationAlert` dictionary emitted by `_detect_concentration`. -/
structure ConcentrationAlert where
  symbol : String
  current_percent : ℚ
  target_percent : ℚ
  suggested_sell_amount : ℚ
  deriving Repr, DecidableEq

/-- Embedding of `_detect_concentration`
(`app/services/portfolio_context.py` lines 307-328).  Python's
`max(filtered, key=...)` keeps the first element with the maximal key; the
fold below replaces the accumulator only on a strictly larger percent,
which is the same choice. -/
def detect_concentration (allocation : List AllocEntry) (total_value : ℚ) :
    Option ConcentrationAlert :=
  if total_value ≤ 0 ∨ allocation = [] then none
  else
    match allocation.filter (fun a => a.symbol != "CASH") with
    | [] => none
    | x :: xs =>
        let largest := xs.foldl (fun acc a => if a.percent > acc.percent then a else acc) x
        if largest.percent ≤ 60 then none
        else
          some { symbol := largest.symbol
                 current_percent := largest.percent
                 target_percent := 60
                 suggested_sell_amount := total_value * ((largest.percent - 60) / 100) }

/- ============================== Theorems ================================ -/

/-- C9: for a single lot of 10 units bought at 150 and priced at 270, the
per-position valuation (`calculate_position_pl`) returns `pl_amount = 1200`
and `pl_percent = 80`; the capital-gains calculation on that sale under the
flat-5% jurisdiction (Kenya) returns `gross_gain = 1200`, `tax_owed = 60`
and `net_gain = 1140`. -/
theorem end_to_end_lot_pl_and_kenya_tax :
    (calculate_position_pl 10 150 270).pl_amount = 1200
    ∧ (calculate_position_pl 10 150 270).pl_percent = 80
    ∧ (calculate_capital_gains_tax 150 270 10 400 Jurisdiction.kenya).gross_gain = 1200
    ∧ (calculate_capital_gains_tax 150 270 10 400 Jurisdiction.kenya).tax_owed = 60
    ∧ (calculate_capital_gains_tax 150 270 10 400 Jurisdiction.kenya).net_gain = 1140 := by
  refine ⟨?_, ?_, ?_, ?_, ?_⟩ <;> norm_num [calculate_position_pl, calculate_capital_gains_tax,
    calculate_kenya_cgt]

/-- C2 (code bug): the add-entry operation performs NO validation of
quantity or price.  `PortfolioManager.add_position` with quantity `-5` at
price `10` appends the lot and reports success, and the server route
`add_position` on a portfolio with zero cash accepts the same input (the
negative total cost passes the only check, the cash check), records the
negative lot and even credits 50 of cash — instead of failing with
`InvalidQuantity` and leaving the ledger unchanged as the claim states. -/
theorem add_position_accepts_nonpositive_quantity :
    (pm_add_position [] "AAPL" (-5) 10 "2024-01-01").1.length = 1
    ∧ (pm_add_position [] "AAPL" (-5) 10 "2024-01-01").2 = true
    ∧ add_position ⟨0, [], []⟩ "AAPL" (-5) 10 "2024-01-01" =
        LedgerResult.ok
          ⟨50, [⟨"AAPL", "stock", [⟨-5, 10, "2024-01-01", ""⟩], -5, 10, -50⟩], []⟩
          ⟨-50, 50⟩ := by
  refine ⟨rfl, rfl, ?_⟩
  norm_num [add_position]

/-- C1 (code bug): `run_monte_carlo` has no seed parameter; it consumes the
process-global random generator, which advances across calls.  With the
generator stream delivering 2 then 0, two consecutive calls with identical
parameters (portfolio 100, withdrawal 200, 1 year, 1 trial) report success
rates 100 and 0 — not identical outputs, contradicting the determinism
requirement.  (Given an equal cursor — i.e. an explicitly re-seeded
generator — the embedding is a pure function, so equal seeds would give
equal results; the source provides no way to supply that seed.) -/
theorem monte_carlo_consecutive_runs_differ :
    ((run_monte_carlo (fun n => if n = 0 then 2 else 0) 0 100 200 1 1).1.success_rate = 100)
    ∧ ((run_monte_carlo (fun n => if n = 0 then 2 else 0)
          ((run_monte_carlo (fun n => if n = 0 then 2 else 0) 0 100 200 1 1).2)
          100 200 1 1).1.success_rate = 0)
    ∧ (run_monte_carlo (fun n => if n = 0 then 2 else 0) 0 100 200 1 1).1.success_rate ≠
        (run_monte_carlo (fun n => if n = 0 then 2 else 0)
          ((run_monte_carlo (fun n => if n = 0 then 2 else 0) 0 100 200 1 1).2)
          100 200 1 1).1.success_rate := by
  refine ⟨?_, ?_, ?_⟩ <;>
    norm_num [run_monte_carlo, run_monte_carlo_sims, run_monte_carlo_trial]

/-- Every recorded per-trial final value is `max 0 portfolio`, hence
non-negative. -/
theorem run_monte_carlo_sims_vals_nonneg (draws : ℕ → ℚ) (sp aw : ℚ) (years : ℕ) :
    ∀ pos sims v, v ∈ (run_monte_carlo_sims draws sp aw years pos sims).2.1 → 0 ≤ v := by
  intro pos sims
  induction sims generalizing pos with
  | zero => intro v hv; simp [run_monte_carlo_sims] at hv
  | succ n ih =>
      intro v hv
      simp only [run_monte_carlo_sims, List.mem_cons] at hv
      rcases hv with rfl | hv
      · exact le_max_left 0 _
      · exact ih _ v hv

/-- The recorded final-value list has one entry per trial. -/
theorem run_monte_carlo_sims_vals_length (draws : ℕ → ℚ) (sp aw : ℚ) (years : ℕ) :
    ∀ pos sims, (run_monte_carlo_sims draws sp aw years pos sims).2.1.length = sims := by
  intro pos sims
  induction sims generalizing pos with
  | zero => simp [run_monte_carlo_sims]
  | succ n ih => simp [run_monte_carlo_sims, ih]

/-- C10: every per-trial final value recorded by `run_monte_carlo` is
clamped via `max(0, portfolio)`, so with at least one trial the reported
median and 10th/90th-percentile final values are non-negative. -/
theorem monte_carlo_percentiles_nonneg (draws : ℕ → ℚ) (pos : ℕ) (sp aw : ℚ)
    (years sims : ℕ) (hs : 1 ≤ sims) :
    (∀ v ∈ (run_monte_carlo_sims draws sp aw years pos sims).2.1, 0 ≤ v)
    ∧ 0 ≤ (run_monte_carlo draws pos sp aw years sims).1.median_final_value
    ∧ 0 ≤ (run_monte_carlo draws pos sp aw years sims).1.worst_case_10th_percentile
    ∧ 0 ≤ (run_monte_carlo draws pos sp aw years sims).1.best_case_90th_percentile := by
  have hlen : (run_monte_carlo_sims draws sp aw years pos sims).2.1.length = sims :=
    run_monte_carlo_sims_vals_length draws sp aw years pos sims
  have hnn := run_monte_carlo_sims_vals_nonneg draws sp aw years
  have hkey : ∀ i, i < sims →
      0 ≤ ((run_monte_carlo_sims draws sp aw years pos sims).2.1.insertionSort (· ≤ ·)).getD i 0 := by
    intro i hi
    have hl : i < ((run_monte_carlo_sims draws sp aw years pos sims).2.1.insertionSort (· ≤ ·)).length := by
      rw [List.length_insertionSort, hlen]; exact hi
    rw [List.getD_eq_getElem?_getD, List.getElem?_eq_getElem hl]
    have hm := List.getElem_mem hl
    rw [List.mem_insertionSort] at hm
    exact hnn pos sims _ hm
  have hpos : 0 < sims := hs
  refine ⟨fun v hv => hnn pos sims v hv, ?_, ?_, ?_⟩
  · simp only [run_monte_carlo, List.length_insertionSort, hlen]
    exact hkey (sims / 2) (Nat.div_lt_self hpos (by norm_num))
  · simp only [run_monte_carlo, List.length_insertionSort, hlen]
    exact hkey (sims * 1 / 10) (by omega)
  · simp only [run_monte_carlo, List.length_insertionSort, hlen]
    exact hkey (sims * 9 / 10) (by
      rw [Nat.div_lt_iff_lt_mul (by norm_num)]
      omega)

/-- C10 witness: the non-negativity theorem instantiated at one trial of a
zero-valued portfolio. -/
theorem monte_carlo_percentiles_nonneg_witness :
    1 ≤ 1
    ∧ ((∀ v ∈ (run_monte_carlo_sims (fun _ => 0) 0 0 0 0 1).2.1, 0 ≤ v)
       ∧ 0 ≤ (run_monte_carlo (fun _ => 0) 0 0 0 0 1).1.median_final_value
       ∧ 0 ≤ (run_monte_carlo (fun _ => 0) 0 0 0 0 1).1.worst_case_10th_percentile
       ∧ 0 ≤ (run_monte_carlo (fun _ => 0) 0 0 0 0 1).1.best_case_90th_percentile) :=
  ⟨le_refl 1, monte_carlo_percentiles_nonneg (fun _ => 0) 0 0 0 0 1 (le_refl 1)⟩

/-- C3: selling `q ≤ total_quantity` at price `price` from the position row
found for the symbol yields realized gain exactly `q * (price - average_cost)`
and credits the proceeds to cash; selling the full quantity removes the row,
a partial sell scales `total_invested` by `(Q - q) / Q`. -/
theorem sell_position_conservation (st : PortfolioState) (symbol : String)
    (p : LedgerPosition) (q price : ℚ)
    (hfind : st.positions.find? (fun r => r.symbol == symbol) = some p)
    (hq0 : 0 ≤ q) (hq : q ≤ p.total_quantity) :
    ∃ st1 receipt, sell_position st symbol q price = LedgerResult.ok st1 receipt
      ∧ receipt.realized_pl = q * (price - p.average_cost)
      ∧ st1.cash_balance = st.cash_balance + q * price
      ∧ (q = p.total_quantity →
          st1.positions = st.positions.eraseP (fun r => r.symbol == symbol))
      ∧ (q < p.total_quantity →
          st1.positions = replace_first (fun r => r.symbol == symbol)
            (fun r => { r with
                        total_quantity := p.total_quantity - q
                        total_invested := p.total_invested * ((p.total_quantity - q) / p.total_quantity) })
            st.positions) := by
  have hnotgt : ¬ (q > p.total_quantity) := not_lt.mpr hq
  rcases lt_or_eq_of_le hq with hlt | heq
  · refine ⟨{ st with
              cash_balance := st.cash_balance + q * price
              positions := replace_first (fun r => r.symbol == symbol)
                (fun r => { r with
                            total_quantity := p.total_quantity - q
                            total_invested := p.total_invested * ((p.total_quantity - q) / p.total_quantity) })
                st.positions },
            ⟨q * price, st.cash_balance + q * price, q * price - q * p.average_cost,
             if q * p.average_cost > 0 then
               (q * price - q * p.average_cost) / (q * p.average_cost) * 100 else 0,
             q * p.average_cost⟩, ?_, ?_, ?_, ?_, ?_⟩
    · simp only [sell_position, hfind]
      rw [if_neg hnotgt, if_neg (not_le.mpr hlt)]
    · show q * price - q * p.average_cost = q * (price - p.average_cost)
      ring
    · rfl
    · intro h; exact absurd h (ne_of_lt hlt)
    · intro _; rfl
  · refine ⟨{ st with
              cash_balance := st.cash_balance + q * price
              positions := st.positions.eraseP (fun r => r.symbol == symbol) },
            ⟨q * price, st.cash_balance + q * price, q * price - q * p.average_cost,
             if q * p.average_cost > 0 then
               (q * price - q * p.average_cost) / (q * p.average_cost) * 100 else 0,
             q * p.average_cost⟩, ?_, ?_, ?_, ?_, ?_⟩
    · simp only [sell_position, hfind]
      rw [if_neg hnotgt, if_pos (ge_of_eq heq)]
    · show q * price - q * p.average_cost = q * (price - p.average_cost)
      ring
    · rfl
    · intro _; rfl
    · intro h; exact absurd (heq ▸ h) (lt_irrefl _)

/-- C3 witness: selling 4 of 10 AAPL units with average cost 150 at 270
realizes `4 * (270 - 150)`. -/
theorem sell_position_conservation_witness :
    (⟨0, [⟨"AAPL", "stock", [], 10, 150, 1500⟩], []⟩ :
        PortfolioState).positions.find? (fun r => r.symbol == "AAPL") =
      some ⟨"AAPL", "stock", [], 10, 150, 1500⟩
    ∧ (0:ℚ) ≤ 4 ∧ (4:ℚ) ≤ (⟨"AAPL", "stock", [], 10, 150, 1500⟩ : LedgerPosition).total_quantity
    ∧ (∃ st1 receipt,
        sell_position ⟨0, [⟨"AAPL", "stock", [], 10, 150, 1500⟩], []⟩ "AAPL" 4 270 =
          LedgerResult.ok st1 receipt
        ∧ receipt.realized_pl =
            4 * (270 - (⟨"AAPL", "stock", [], 10, 150, 1500⟩ : LedgerPosition).average_cost)
        ∧ st1.cash_balance =
            (⟨0, [⟨"AAPL", "stock", [], 10, 150, 1500⟩], []⟩ : PortfolioState).cash_balance + 4 * 270
        ∧ ((4:ℚ) = (⟨"AAPL", "stock", [], 10, 150, 1500⟩ : LedgerPosition).total_quantity →
            st1.positions =
              (⟨0, [⟨"AAPL", "stock", [], 10, 150, 1500⟩], []⟩ :
                  PortfolioState).positions.eraseP (fun r => r.symbol == "AAPL"))
        ∧ ((4:ℚ) < (⟨"AAPL", "stock", [], 10, 150, 1500⟩ : LedgerPosition).total_quantity →
            st1.positions = replace_first (fun r => r.symbol == "AAPL")
              (fun r => { r with
                          total_quantity :=
                            (⟨"AAPL", "stock", [], 10, 150, 1500⟩ : LedgerPosition).total_quantity - 4
                          total_invested :=
                            (⟨"AAPL", "stock", [], 10, 150, 1500⟩ : LedgerPosition).total_invested *
                              (((⟨"AAPL", "stock", [], 10, 150, 1500⟩ : LedgerPosition).total_quantity - 4) /
                                (⟨"AAPL", "stock", [], 10, 150, 1500⟩ : LedgerPosition).total_quantity) })
              (⟨0, [⟨"AAPL", "stock", [], 10, 150, 1500⟩], []⟩ : PortfolioState).positions)) :=
  ⟨rfl, by norm_num, by norm_num,
    sell_position_conservation ⟨0, [⟨"AAPL", "stock", [], 10, 150, 1500⟩], []⟩ "AAPL"
      ⟨"AAPL", "stock", [], 10, 150, 1500⟩ 4 270 rfl (by norm_num) (by norm_num)⟩

/-- C4: selling more than the held quantity fails with the
insufficient-quantity error and withdrawing more than the cash balance
fails with the insufficient-cash error; in both cases the returned state is
exactly the input state (the `ValueError` is raised before any write). -/
theorem sell_and_withdraw_insufficient_leave_state_unchanged
    (st : PortfolioState) (symbol : String) (p : LedgerPosition)
    (q price amount : ℚ) (wdate : String)
    (hfind : st.positions.find? (fun r => r.symbol == symbol) = some p)
    (hq : p.total_quantity < q) (hamt : st.cash_balance < amount) :
    sell_position st symbol q price = LedgerResult.err st LedgerError.insufficient_quantity
    ∧ add_withdrawal st amount wdate = LedgerResult.err st LedgerError.insufficient_cash := by
  constructor
  · simp only [sell_position, hfind]
    rw [if_pos hq]
  · simp only [add_withdrawal]
    rw [if_pos hamt]

/-- C4 witness: with 10 units held and cash 5, selling 11 and withdrawing 7
both fail and return the unchanged state. -/
theorem sell_and_withdraw_insufficient_witness :
    (⟨5, [⟨"AAPL", "stock", [], 10, 150, 1500⟩], []⟩ :
        PortfolioState).positions.find? (fun r => r.symbol == "AAPL") =
      some ⟨"AAPL", "stock", [], 10, 150, 1500⟩
    ∧ (⟨"AAPL", "stock", [], 10, 150, 1500⟩ : LedgerPosition).total_quantity < (11:ℚ)
    ∧ (⟨5, [⟨"AAPL", "stock", [], 10, 150, 1500⟩], []⟩ : PortfolioState).cash_balance < (7:ℚ)
    ∧ (sell_position ⟨5, [⟨"AAPL", "stock", [], 10, 150, 1500⟩], []⟩ "AAPL" 11 270 =
        LedgerResult.err ⟨5, [⟨"AAPL", "stock", [], 10, 150, 1500⟩], []⟩
          LedgerError.insufficient_quantity
       ∧ add_withdrawal ⟨5, [⟨"AAPL", "stock", [], 10, 150, 1500⟩], []⟩ 7 "2024-06-01" =
        LedgerResult.err ⟨5, [⟨"AAPL", "stock", [], 10, 150, 1500⟩], []⟩
          LedgerError.insufficient_cash) :=
  ⟨rfl, by norm_num, by norm_num,
    sell_and_withdraw_insufficient_leave_state_unchanged
      ⟨5, [⟨"AAPL", "stock", [], 10, 150, 1500⟩], []⟩ "AAPL"
      ⟨"AAPL", "stock", [], 10, 150, 1500⟩ 11 270 7 "2024-06-01" rfl (by norm_num) (by norm_num)⟩

/-- C7: for every input and every jurisdiction, `tax_owed` is non-negative;
whenever `gross_gain = (sale_price - purchase_price) * quantity ≤ 0` the
result has `tax_owed = 0` and carries `tax_loss` equal to the absolute
loss. -/
theorem tax_owed_nonneg_and_losses_untaxed (pp sp qty : ℚ) (d : ℤ)
    (j : Jurisdiction) (ts : TaxpayerStatus) :
    0 ≤ (calculate_capital_gains_tax pp sp qty d j ts).tax_owed
    ∧ ((sp - pp) * qty ≤ 0 →
        (calculate_capital_gains_tax pp sp qty d j ts).tax_owed = 0
        ∧ (calculate_capital_gains_tax pp sp qty d j ts).tax_loss = some |(sp - pp) * qty|) := by
  by_cases hg : (sp - pp) * qty ≤ 0
  · rw [calculate_capital_gains_tax.eq_def, if_pos hg]
    exact ⟨le_refl 0, fun _ => ⟨rfl, rfl⟩⟩
  · have hgt : 0 < (sp - pp) * qty := lt_of_not_le hg
    rw [calculate_capital_gains_tax.eq_def, if_neg hg]
    refine ⟨?_, fun h => absurd h hg⟩
    cases j with
    | kenya =>
        cases ts <;>
          · show 0 ≤ (sp - pp) * qty * (5/100)
            positivity
    | us =>
        show 0 ≤ (calculate_us_cgt ((sp - pp) * qty) d).tax_owed
        rw [calculate_us_cgt]
        split_ifs <;> · show 0 ≤ (sp - pp) * qty * _; positivity
    | uk =>
        show 0 ≤ max 0 ((sp - pp) * qty - 3000) * (10/100)
        positivity
    | international =>
        show 0 ≤ (sp - pp) * qty * (20/100)
        positivity

/-- C7 witness: a sale at a loss is taxed zero with the loss recorded, and
the instantiated non-negativity fact. -/
theorem tax_owed_nonneg_and_losses_untaxed_witness :
    0 ≤ (calculate_capital_gains_tax 200 150 10 100 Jurisdiction.us TaxpayerStatus.resident).tax_owed
    ∧ (((150:ℚ) - 200) * 10 ≤ 0 →
        (calculate_capital_gains_tax 200 150 10 100 Jurisdiction.us TaxpayerStatus.resident).tax_owed = 0
        ∧ (calculate_capital_gains_tax 200 150 10 100 Jurisdiction.us
            TaxpayerStatus.resident).tax_loss = some |((150:ℚ) - 200) * 10|) :=
  tax_owed_nonneg_and_losses_untaxed 200 150 10 100 Jurisdiction.us TaxpayerStatus.resident

/-- C8: with a positive initial reference value, the guardrails calculation
recommends rate 4.5% when the relative change exceeds +20%, 3.5% when it is
below -15%, and 4% otherwise, and `recommended_annual` is the current value
times the recommended rate. -/
theorem guardrails_rate_bands (pv init bw : ℚ) (hinit : 0 < init) :
    (calculate_with_guardrails pv init bw).recommended_rate =
      (if (pv - init) / init > 20/100 then 45/1000
       else if (pv - init) / init < -(15/100) then 35/1000
       else 4/100)
    ∧ (calculate_with_guardrails pv init bw).recommended_annual =
        pv * (calculate_with_guardrails pv init bw).recommended_rate := by
  constructor
  · simp only [calculate_with_guardrails]
    split_ifs <;> rfl
  · simp only [calculate_with_guardrails]

/-- C8 witness: portfolio 625000 versus initial 500000 (up 25%) gets rate
4.5% and `recommended_annual = 625000 * 0.045`. -/
theorem guardrails_rate_bands_witness :
    (0:ℚ) < 500000
    ∧ ((calculate_with_guardrails 625000 500000 20000).recommended_rate =
        (if ((625000:ℚ) - 500000) / 500000 > 20/100 then 45/1000
         else if ((625000:ℚ) - 500000) / 500000 < -(15/100) then 35/1000
         else 4/100)
       ∧ (calculate_with_guardrails 625000 500000 20000).recommended_annual =
          625000 * (calculate_with_guardrails 625000 500000 20000).recommended_rate) :=
  ⟨by norm_num, guardrails_rate_bands 625000 500000 20000 (by norm_num)⟩

/-- C6: for every allocation, risk score and derived inputs, each of the
four sub-scores lies in [0, 25], the total equals their sum and lies in
[0, 100], and the rating bucket is Excellent when the total is at least 85,
Good when at least 70, Fair when at least 55, and Needs Attention below
that. -/
theorem health_score_bounds_and_rating (by_symbol : List (String × ℚ))
    (user_risk_score pl_percent ytd_rate : ℚ) :
    (0 ≤ (calculate_portfolio_health_score by_symbol user_risk_score pl_percent ytd_rate).diversification
      ∧ (calculate_portfolio_health_score by_symbol user_risk_score pl_percent ytd_rate).diversification ≤ 25)
    ∧ (0 ≤ (calculate_portfolio_health_score by_symbol user_risk_score pl_percent ytd_rate).risk_alignment
      ∧ (calculate_portfolio_health_score by_symbol user_risk_score pl_percent ytd_rate).risk_alignment ≤ 25)
    ∧ (0 ≤ (calculate_portfolio_health_score by_symbol user_risk_score pl_percent ytd_rate).performance
      ∧ (calculate_portfolio_health_score by_symbol user_risk_score pl_percent ytd_rate).performance ≤ 25)
    ∧ (0 ≤ (calculate_portfolio_health_score by_symbol user_risk_score pl_percent ytd_rate).sustainability
      ∧ (calculate_portfolio_health_score by_symbol user_risk_score pl_percent ytd_rate).sustainability ≤ 25)
    ∧ (calculate_portfolio_health_score by_symbol user_risk_score pl_percent ytd_rate).total_score =
        (calculate_portfolio_health_score by_symbol user_risk_score pl_percent ytd_rate).diversification
        + (calculate_portfolio_health_score by_symbol user_risk_score pl_percent ytd_rate).risk_alignment
        + (calculate_portfolio_health_score by_symbol user_risk_score pl_percent ytd_rate).performance
        + (calculate_portfolio_health_score by_symbol user_risk_score pl_percent ytd_rate).sustainability
    ∧ (0 ≤ (calculate_portfolio_health_score by_symbol user_risk_score pl_percent ytd_rate).total_score
      ∧ (calculate_portfolio_health_score by_symbol user_risk_score pl_percent ytd_rate).total_score ≤ 100)
    ∧ (calculate_portfolio_health_score by_symbol user_risk_score pl_percent ytd_rate).health_rating =
        (if 85 ≤ (calculate_portfolio_health_score by_symbol user_risk_score pl_percent ytd_rate).total_score
         then "Excellent"
         else if 70 ≤ (calculate_portfolio_health_score by_symbol user_risk_score pl_percent ytd_rate).total_score
         then "Good"
         else if 55 ≤ (calculate_portfolio_health_score by_symbol user_risk_score pl_percent ytd_rate).total_score
         then "Fair"
         else "Needs Attention") := by
  simp only [calculate_portfolio_health_score]
  constructor
  · constructor
    · exact le_max_left 0 _
    · exact max_le (by norm_num) (min_le_left 25 _)
  refine ⟨?_, ?_, ?_, ?_, ?_, ?_⟩
  · split_ifs <;> norm_num
  · split_ifs <;> norm_num
  · split_ifs <;> norm_num
  · trivial
  · constructor
    · have h2 : ∀ x : ℚ, (x = 25 ∨ x = 20 ∨ x = 15 ∨ x = 10 ∨ x = 5) → 0 ≤ x := by
        rintro x (rfl | rfl | rfl | rfl | rfl) <;> norm_num
      refine add_nonneg (add_nonneg (add_nonneg (le_max_left 0 _) ?_) ?_) ?_ <;>
        · apply h2; split_ifs <;> simp
    · have hd : max 0 (min 25 (25 - ((by_symbol.map
          (fun sp => if sp.2 > 15 then (sp.2 - 15) * (5/10) else 0)).sum)
          - (if by_symbol.length < 5 then ((5 - by_symbol.length : ℕ) : ℚ) * 3 else 0))) ≤ 25 :=
        max_le (by norm_num) (min_le_left 25 _)
      have h2 : ∀ x : ℚ, (x = 25 ∨ x = 20 ∨ x = 15 ∨ x = 10 ∨ x = 5) → x ≤ 25 := by
        rintro x (rfl | rfl | rfl | rfl | rfl) <;> norm_num
      have hr : (if |estimate_portfolio_risk by_symbol - user_risk_score| < 1/10 then (25:ℚ)
          else if |estimate_portfolio_risk by_symbol - user_risk_score| < 2/10 then 20
          else if |estimate_portfolio_risk by_symbol - user_risk_score| < 3/10 then 15
          else 10) ≤ 25 := by apply h2; split_ifs <;> simp
      have hp : (if pl_percent > 20 then (25:ℚ) else if pl_percent > 10 then 20
          else if pl_percent > 5 then 15 else if pl_percent > 0 then 10 else 5) ≤ 25 := by
        apply h2; split_ifs <;> simp
      have hs : (if ytd_rate < 4/100 then (25:ℚ) else if ytd_rate < 5/100 then 20
          else if ytd_rate < 6/100 then 15 else 10) ≤ 25 := by
        apply h2; split_ifs <;> simp
      linarith
  · trivial

/-- The fold implementing `max(filtered, key=...)` returns the start element
or an element of the folded list. -/
theorem detect_fold_mem (xs : List AllocEntry) (x : AllocEntry) :
    xs.foldl (fun acc a => if a.percent > acc.percent then a else acc) x = x
    ∨ xs.foldl (fun acc a => if a.percent > acc.percent then a else acc) x ∈ xs := by
  induction xs generalizing x with
  | nil => exact Or.inl rfl
  | cons a xs ih =>
      simp only [List.foldl_cons]
      rcases ih (if a.percent > x.percent then a else x) with h | h
      · rw [h]
        split_ifs with hc
        · exact Or.inr (List.mem_cons_self a xs)
        · exact Or.inl rfl
      · exact Or.inr (List.mem_cons_of_mem a h)

/-- If `e` is among the candidates and strictly dominates every other
candidate's percent, the fold implementing `max(filtered, key=...)`
returns `e`. -/
theorem detect_fold_eq (h : AllocEntry) : ∀ (xs : List AllocEntry) (x : AllocEntry),
    (x = h ∨ h ∈ xs) →
    (x ≠ h → x.percent < h.percent) →
    (∀ a ∈ xs, a ≠ h → a.percent < h.percent) →
    xs.foldl (fun acc a => if a.percent > acc.percent then a else acc) x = h := by
  intro xs
  induction xs with
  | nil =>
      intro x hx _ _
      rcases hx with rfl | hmem
      · rfl
      · exact absurd hmem (List.not_mem_nil h)
  | cons a xs ih =>
      intro x hx hxlt hall
      simp only [List.foldl_cons]
      have hstep : (if a.percent > x.percent then a else x) = a
          ∨ (if a.percent > x.percent then a else x) = x := by
        split_ifs
        · exact Or.inl rfl
        · exact Or.inr rfl
      apply ih
      · rcases hx with rfl | hmem
        · left
          by_cases hah : a = x
          · subst hah; split_ifs <;> rfl
          · have hlt := hall a (List.mem_cons_self a xs) hah
            rw [if_neg (not_lt.mpr (le_of_lt hlt))]
        · rcases List.mem_cons.mp hmem with hha | hhx
          · left
            subst hha
            by_cases hxh : x = h
            · subst hxh; split_ifs <;> rfl
            · rw [if_pos (hxlt hxh)]
          · exact Or.inr hhx
      · intro hne
        rcases hstep with hsa | hsx
        · rw [hsa] at hne ⊢
          exact hall a (List.mem_cons_self a xs) hne
        · rw [hsx] at hne ⊢
          exact hxlt hne
      · exact fun b hb => hall b (List.mem_cons_of_mem a hb)

/-- Two distinct members of a list of non-negative values together weigh at
most the list's total. -/
theorem pair_value_le_sum (l : List AllocEntry) (a h : AllocEntry)
    (ha : a ∈ l) (hh : h ∈ l) (hne : a ≠ h)
    (hnn : ∀ b ∈ l, 0 ≤ b.value) :
    a.value + h.value ≤ (l.map (fun b => b.value)).sum := by
  have hperm : List.Perm l (h :: l.erase h) := List.perm_cons_erase hh
  have hsum : (l.map (fun b => b.value)).sum
      = h.value + ((l.erase h).map (fun b => b.value)).sum := by
    rw [(hperm.map (fun b => b.value)).sum_eq]
    simp
  have hmem : a ∈ l.erase h := (List.mem_erase_of_ne hne).mpr ha
  have h1 : a.value ≤ ((l.erase h).map (fun b => b.value)).sum := by
    apply List.single_le_sum
    · intro x hx
      simp only [List.mem_map] at hx
      obtain ⟨b, hb, rfl⟩ := hx
      exact hnn b (List.mem_of_mem_erase hb)
    · exact List.mem_map_of_mem _ hmem
  linarith

/-- C5: for an allocation with positive total value whose entry percents are
`value / total * 100` with non-negative values summing to at most the total,
a non-cash entry strictly above 60% yields the `ConcentrationAlert` with
`target_percent = 60` and
`suggested_sell_amount = total_value * ((percent - 60) / 100)`; if every
non-cash entry is at or below 60% no alert is produced. -/
theorem concentration_alert_over_60 (allocation : List AllocEntry)
    (total_value : ℚ) (e : AllocEntry) (htot : 0 < total_value)
    (hwf : ∀ a ∈ allocation, 0 ≤ a.value ∧ a.percent = a.value / total_value * 100)
    (hsum : (allocation.map (fun a => a.value)).sum ≤ total_value) :
    (e ∈ allocation → e.symbol ≠ "CASH" → 60 < e.percent →
      detect_concentration allocation total_value =
        some ⟨e.symbol, e.percent, 60, total_value * ((e.percent - 60) / 100)⟩)
    ∧ ((∀ a ∈ allocation, a.symbol ≠ "CASH" → a.percent ≤ 60) →
      detect_concentration allocation total_value = none) := by
  constructor
  · intro hmem hncash hgt
    have hev : 60 * total_value < e.value * 100 := by
      have hp := (hwf e hmem).2
      rw [hp, div_mul_eq_mul_div, lt_div_iff₀ htot] at hgt
      linarith
    have hdom : ∀ a ∈ allocation, a ≠ e → a.percent < e.percent := by
      intro a hamem hane
      have hpair := pair_value_le_sum allocation a e hamem hmem hane
        (fun b hb => (hwf b hb).1)
      have hap : a.percent < 40 := by
        rw [(hwf a hamem).2, div_mul_eq_mul_div, div_lt_iff₀ htot]
        linarith
      linarith
    have h0 : ¬ (total_value ≤ 0 ∨ allocation = []) := by
      rintro (hle | rfl)
      · exact absurd htot (not_lt.mpr hle)
      · exact absurd hmem (List.not_mem_nil e)
    have hefil : e ∈ allocation.filter (fun a => a.symbol != "CASH") :=
      List.mem_filter.mpr ⟨hmem, by simpa using hncash⟩
    rw [detect_concentration, if_neg h0]
    cases hfil : allocation.filter (fun a => a.symbol != "CASH") with
    | nil => rw [hfil] at hefil; exact absurd hefil (List.not_mem_nil e)
    | cons x xs =>
        rw [hfil] at hefil
        have hsub : ∀ b, b ∈ x :: xs → b ∈ allocation := by
          intro b hb
          rw [← hfil] at hb
          exact (List.mem_filter.mp hb).1
        have hfold : xs.foldl (fun acc a => if a.percent > acc.percent then a else acc) x = e := by
          apply detect_fold_eq
          · rcases List.mem_cons.mp hefil with he | he
            · exact Or.inl he.symm
            · exact Or.inr he
          · intro hne
            exact hdom x (hsub x (List.mem_cons_self x xs)) hne
          · intro a hax hane
            exact hdom a (hsub a (List.mem_cons_of_mem x hax)) hane
        simp only [hfold]
        rw [if_neg (not_le.mpr hgt)]
  · intro hall
    by_cases h0 : total_value ≤ 0 ∨ allocation = []
    · rw [detect_concentration, if_pos h0]
    · rw [detect_concentration, if_neg h0]
      cases hfil : allocation.filter (fun a => a.symbol != "CASH") with
      | nil => rfl
      | cons x xs =>
          have hsub : ∀ b, b ∈ x :: xs → b ∈ allocation ∧ b.symbol ≠ "CASH" := by
            intro b hb
            rw [← hfil] at hb
            have := List.mem_filter.mp hb
            exact ⟨this.1, by simpa using this.2⟩
          have hlmem := detect_fold_mem xs x
          have hle : (xs.foldl (fun acc a => if a.percent > acc.percent then a else acc) x).percent ≤ 60 := by
            rcases hlmem with heq | hm
            · rw [heq]
              have := hsub x (List.mem_cons_self x xs)
              exact hall x this.1 this.2
            · have := hsub _ (List.mem_cons_of_mem x hm)
              exact hall _ this.1 this.2
          exact if_pos hle

/-- C5 witness: in a two-asset allocation of total 1000, the 61% holding
triggers the alert with `suggested_sell_amount = 1000 * ((61 - 60) / 100)`,
and a 60%/40% allocation triggers none. -/
theorem concentration_alert_over_60_witness :
    ((0:ℚ) < 1000)
    ∧ ((⟨"AAPL", 610, 61⟩ : AllocEntry) ∈ [(⟨"AAPL", 610, 61⟩ : AllocEntry), ⟨"MSFT", 390, 39⟩] →
        (⟨"AAPL", 610, 61⟩ : AllocEntry).symbol ≠ "CASH" →
        60 < (⟨"AAPL", 610, 61⟩ : AllocEntry).percent →
        detect_concentration [⟨"AAPL", 610, 61⟩, ⟨"MSFT", 390, 39⟩] 1000 =
          some ⟨(⟨"AAPL", 610, 61⟩ : AllocEntry).symbol,
                (⟨"AAPL", 610, 61⟩ : AllocEntry).percent, 60,
                1000 * (((⟨"AAPL", 610, 61⟩ : AllocEntry).percent - 60) / 100)⟩)
    ∧ detect_concentration [⟨"AAPL", 610, 61⟩, ⟨"MSFT", 390, 39⟩] 1000 =
        some ⟨"AAPL", 61, 60, 10⟩
    ∧ detect_concentration [⟨"AAPL", 600, 60⟩, ⟨"MSFT", 400, 40⟩] 1000 = none := by
  refine ⟨by norm_num, ?_, ?_, ?_⟩
  · exact (concentration_alert_over_60 [⟨"AAPL", 610, 61⟩, ⟨"MSFT", 390, 39⟩] 1000
      ⟨"AAPL", 610, 61⟩ (by norm_num)
      (by
        intro a ha
        simp only [List.mem_cons, List.mem_singleton] at ha
        rcases ha with rfl | rfl | h
        · norm_num
        · norm_num
        · simp at h)
      (by norm_num)).1
  · have := (concentration_alert_over_60 [⟨"AAPL", 610, 61⟩, ⟨"MSFT", 390, 39⟩] 1000
      ⟨"AAPL", 610, 61⟩ (by norm_num)
      (by
        intro a ha
        simp only [List.mem_cons, List.mem_singleton] at ha
        rcases ha with rfl | rfl | h
        · norm_num
        · norm_num
        · simp at h)
      (by norm_num)).1 (by simp) (by simp) (by norm_num)
    rw [this]
    norm_num
  · exact (concentration_alert_over_60 [⟨"AAPL", 600, 60⟩, ⟨"MSFT", 400, 40⟩] 1000
      ⟨"AAPL", 600, 60⟩ (by norm_num)
      (by
        intro a ha
        simp only [List.mem_cons, List.mem_singleton] at ha
        rcases ha with rfl | rfl | h
        · norm_num
        · norm_num
        · simp at h)
      (by norm_num)).2
      (by
        intro a ha _
        simp only [List.mem_cons, List.mem_singleton] at ha
        rcases ha with rfl | rfl | h
        · norm_num
        · norm_num
        · simp at h)
